import Mathlib

/-!
# snyk-cli-greybeard: a shallow embedding of `main.go`

The program is a linear wrapper: check the environment, run `snyk`, print its
output, send it to a chat-completion endpoint, print the answer, and exit with
the subprocess's exit code.  Everything outside the process (arguments,
environment, search path, the subprocess, the HTTP round trip with its JSON
encoding and decoding) is a field of `World`; the program's observable
behaviour is the list of effects it performs and the code handed to `os.Exit`.
-/

namespace Greybeard

/-! ## Data model (`main.go` lines 15-49) -/

/-- Build information, `Version` in the source. -/
def Version : String := "dev"

/-- Build information, `BuildTime` in the source. -/
def BuildTime : String := "unknown"

/-- One chat message, `Message` in the source. -/
structure Message where
  Role : String
  Content : String
  deriving DecidableEq, Repr

/-- The request body, `OpenAIRequest` in the source.  The temperature literal
`0.7` is kept as the exact decimal it is written as. -/
structure OpenAIRequest where
  Model : String
  Messages : List Message
  Temperature : Rat
  deriving DecidableEq

/-- The anonymous struct of `Choices[i].Message` in `OpenAIResponse`. -/
structure ChoiceMessage where
  Role : String
  Content : String
  deriving DecidableEq, Repr

/-- The anonymous element struct of `OpenAIResponse.Choices`. -/
structure Choice where
  Index : Int
  Message : ChoiceMessage
  deriving DecidableEq, Repr

/-- The anonymous struct of `OpenAIResponse.Error`. -/
structure ErrorBody where
  Message : String
  deriving DecidableEq, Repr

/-- The parsed response, `OpenAIResponse` in the source. -/
structure OpenAIResponse where
  ID : String
  Object : String
  Created : Int
  Choices : List Choice
  Error : ErrorBody
  deriving DecidableEq, Repr

/-! ## The outside world -/

/-- What `os.ProcessState` records about a finished child: it exited with a
code, or it was ended by a signal. -/
inductive ProcessState where
  | exited (code : Int)
  | signaled
  deriving DecidableEq, Repr

/-- Go's `(*ProcessState).ExitCode`: the exit code of an exited process, and
`-1` for a nil receiver (the process never started) or a signalled process. -/
def ExitCode : Option ProcessState → Int
  | some (ProcessState.exited c) => c
  | some ProcessState.signaled => -1
  | none => -1

/-- What `cmd.Run()` leaves behind: the two capture buffers and
`cmd.ProcessState` (nil when the process could not be started). -/
structure RunResult where
  stdout : String
  stderr : String
  processState : Option ProcessState
  deriving DecidableEq

/-- How far the HTTP round trip of `callOpenAI` gets (lines 151-189): each
failing stage carries the text of the underlying Go error; the last two also
carry the response body that was read. -/
inductive WireOutcome where
  | marshalError (err : String)
  | requestError (err : String)
  | doError (err : String)
  | readError (err : String)
  | parseError (err : String) (body : String)
  | parsed (body : String) (resp : OpenAIResponse)
  deriving DecidableEq

/-- Everything `main` reads from outside the program. -/
structure World where
  /-- The value of `os.Args`, program name first. -/
  args : List String
  /-- The process environment. -/
  env : String → Option String
  /-- Whether `exec.LookPath` finds the command. -/
  lookPath : String → Bool
  /-- Running `snyk` with the given arguments. -/
  run : List String → RunResult
  /-- The HTTP round trip for a bearer token and a request body. -/
  wire : String → OpenAIRequest → WireOutcome

/-- Go's `os.Getenv`: the value of the variable, empty when it is unset. -/
def Getenv (w : World) (key : String) : String :=
  (w.env key).getD ""

/-- An observable action of the program. -/
inductive Effect where
  /-- Text written to standard output. -/
  | print (s : String)
  /-- The subprocess `snyk args...` is run. -/
  | runSnyk (args : List String)
  /-- The call `callOpenAI(apiKey, systemPrompt, snykOutput)` is made. -/
  | callOpenAI (apiKey systemPrompt snykOutput : String)
  deriving DecidableEq

/-- A finished run of `main`: the effects in order and the process exit code. -/
structure Outcome where
  trace : List Effect
  exitCode : Int
  deriving DecidableEq

/-! ## Go library functions used by the program -/

/-- Go's `unicode.IsSpace`: the Latin-1 spaces, then the `White_Space` table. -/
def isSpace (c : Char) : Bool :=
  let r := c.toNat
  if r ≤ 0xFF then
    r == 0x09 || r == 0x0A || r == 0x0B || r == 0x0C || r == 0x0D || r == 0x20
      || r == 0x85 || r == 0xA0
  else
    r == 0x1680 || (0x2000 ≤ r && r ≤ 0x200A) || r == 0x2028 || r == 0x2029
      || r == 0x202F || r == 0x205F || r == 0x3000

/-- Dropping the leading white space of a rune sequence. -/
def trimLeft (l : List Char) : List Char :=
  l.dropWhile isSpace

/-- Dropping the trailing white space of a rune sequence. -/
def trimRight (l : List Char) : List Char :=
  (l.reverse.dropWhile isSpace).reverse

/-- Go's `strings.TrimSpace`: the string without leading and trailing white
space. -/
def TrimSpace (s : String) : String :=
  ⟨trimRight (trimLeft s.data)⟩

/-- Go's `fmt.Println` with one string argument. -/
def Println (s : String) : Effect :=
  Effect.print (s ++ "\n")

/-! ## The program (`main.go` lines 51-203) -/

/-- The function `isCommandAvailable` (lines 107-111). -/
def isCommandAvailable (w : World) (command : String) : Bool :=
  w.lookPath command

/-- The function `executeSnyk` (lines 113-131): stdout followed by stderr,
and the exit code of the process state. -/
def executeSnyk (w : World) (args : List String) : String × Int :=
  let r := w.run args
  (r.stdout ++ r.stderr, ExitCode r.processState)

/-- The fixed prefix of the user turn (line 145). -/
def userPrefix : String := "Here is the Snyk CLI output:\n"

/-- The request body built at the top of `callOpenAI` (lines 136-149). -/
def requestBody (systemPrompt snykOutput : String) : OpenAIRequest :=
  { Model := "gpt-4o"
    Messages :=
      [ { Role := "system", Content := systemPrompt },
        { Role := "user", Content := userPrefix ++ snykOutput } ]
    Temperature := 7 / 10 }

/-- The function `callOpenAI` (lines 134-203).  The result is Go's
`(string, error)` pair, with `none` for a nil error. -/
def callOpenAI (w : World) (apiKey systemPrompt snykOutput : String) :
    String × Option String :=
  match w.wire apiKey (requestBody systemPrompt snykOutput) with
  | WireOutcome.marshalError e => ("", some ("error marshaling JSON: " ++ e))
  | WireOutcome.requestError e => ("", some ("error creating HTTP request: " ++ e))
  | WireOutcome.doError e => ("", some ("error calling OpenAI API: " ++ e))
  | WireOutcome.readError e => ("", some ("error reading API response: " ++ e))
  | WireOutcome.parseError e body =>
      ("", some ("error parsing API response: " ++ e ++ " (response: " ++ body ++ ")"))
  | WireOutcome.parsed body openAIResp =>
      if openAIResp.Error.Message ≠ "" then
        ("", some ("API error: " ++ openAIResp.Error.Message))
      else
        match openAIResp.Choices with
        | [] =>
            ("", some ("no response content returned from API (response: " ++ body ++ ")"))
        | c :: _ => (c.Message.Content, none)

/-- The heading printed above the raw output (line 77). -/
def rawHeading : String := "\n\x1b[1mRaw Snyk CLI Output:\x1b[0m"

/-- The separator printed after the raw output (line 81). -/
def separator : String := "\n-----------------------------------------------------------\n"

/-- The heading printed above the answer (lines 94 and 100). -/
def greybeardHeading : String := "🧔‍♂️ \x1b[1mSecurity Greybeard says:\x1b[0m\n\n"

/-- The placeholder substituted for blank output (line 85). -/
def placeholder : String :=
  "No output returned from Snyk CLI. This could be due to a successful run with no findings or an error."

/-- The instruction of the system turn (line 89). -/
def systemPrompt : String :=
  "You are a grumpy, experienced security \x27greybeard\x27 with decades of experience. You\x27re tired of seeing the same security mistakes over and over again. Transform the Snyk CLI output into a response that sounds like it\x27s coming from an irritated, knowledgeable security expert who\x27s seen it all. Be condescending yet educational, frustrated yet helpful. Use colorful language (but keep it professional), analogies, and references that an old-school sysadmin might use. FOCUS ONLY ON THE IMPORTANT SECURITY FINDINGS AND VULNERABILITIES - ignore any trivial warnings, licensing issues, or boilerplate messages unless they have actual security implications. Provide context on why the vulnerabilities matter and what could happen if they\x27re exploited. Keep it concise but impactful."

/-- The test of line 53: a first argument that is `-v` or `--version`. -/
def isVersionFlag (args : List String) : Bool :=
  match args with
  | _ :: a :: _ => a == "-v" || a == "--version"
  | _ => false

/-- The function `main` (lines 51-105).  Slicing `os.Args[1:]` of an empty
`os.Args` is a run-time panic, which ends a Go program with exit code 2. -/
def main (w : World) : Outcome :=
  if isVersionFlag w.args then
    { trace := [Effect.print ("Snyk CLI Greybeard v" ++ Version ++ " (built " ++ BuildTime ++ ")\n")]
      exitCode := 0 }
  else
    let apiKey := Getenv w "OPENAI_API_KEY"
    if apiKey = "" then
      { trace :=
          [ Println "Error: OPENAI_API_KEY environment variable is not set.",
            Println "Please set it with: export OPENAI_API_KEY=\x27your-api-key\x27" ]
        exitCode := 1 }
    else if !isCommandAvailable w "snyk" then
      { trace :=
          [ Println "Error: \x27snyk\x27 command not found. Please install the Snyk CLI.",
            Println "Visit https://docs.snyk.io/snyk-cli/install-the-snyk-cli for installation instructions." ]
        exitCode := 1 }
    else
      match w.args with
      | [] => { trace := [], exitCode := 2 }
      | _ :: rest =>
        let (snykOutput, exitCode) := executeSnyk w rest
        let sent :=
          if TrimSpace snykOutput = "" then placeholder else snykOutput
        let pre :=
          [ Effect.runSnyk rest,
            Println rawHeading,
            Println snykOutput,
            Println separator,
            Effect.callOpenAI apiKey systemPrompt sent ]
        match callOpenAI w apiKey systemPrompt sent with
        | (_, some err) =>
            { trace := pre ++
                [ Effect.print greybeardHeading,
                  Effect.print ("Error calling OpenAI API: " ++ err ++ "\n") ]
              exitCode := exitCode }
        | (greybeardResponse, none) =>
            { trace := pre ++
                [ Effect.print greybeardHeading,
                  Println greybeardResponse ]
              exitCode := exitCode }

/-! ## Observations on a run -/

/-- The run gets as far as the call of `executeSnyk`. -/
def reachesExecuteSnyk (w : World) : Prop :=
  ∃ a, Effect.runSnyk a ∈ (main w).trace

/-- The text `executeSnyk` returns for the arguments `os.Args[1:]`. -/
def capturedOutput (w : World) : String :=
  (executeSnyk w w.args.tail).1

/-- The requests built by the calls of `callOpenAI` in a run, in order. -/
def requestsSent (o : Outcome) : List OpenAIRequest :=
  o.trace.filterMap fun e =>
    match e with
    | Effect.callOpenAI _ sp t => some (requestBody sp t)
    | _ => none

/-- The texts passed as `snykOutput` to `callOpenAI` in a run, in order. -/
def textsPassed (o : Outcome) : List String :=
  o.trace.filterMap fun e =>
    match e with
    | Effect.callOpenAI _ _ t => some t
    | _ => none

/-- The contents of the user turns of a request, in order. -/
def userTurns (r : OpenAIRequest) : List String :=
  (r.Messages.filter fun m => m.Role == "user").map fun m => m.Content

/-- Everything written to standard output in a run, one entry per print. -/
def console (o : Outcome) : List String :=
  o.trace.filterMap fun e =>
    match e with
    | Effect.print s => some s
    | _ => none

/-- A string with at least one rune that is not white space. -/
def hasNonSpace (s : String) : Prop :=
  ∃ c ∈ s.data, isSpace c = false

/-- A string that is empty or consists of white space only. -/
def isBlank (s : String) : Prop :=
  ∀ c ∈ s.data, isSpace c = true

instance (s : String) : Decidable (hasNonSpace s) := by
  unfold hasNonSpace
  infer_instance

instance (s : String) : Decidable (isBlank s) := by
  unfold isBlank
  infer_instance

/-- The text `main` passes on after the blank check of lines 84-86. -/
def sentText (snykOutput : String) : String :=
  if TrimSpace snykOutput = "" then placeholder else snykOutput

/-- The checks that lie before the call of `executeSnyk` in `main`. -/
structure ChecksPass (w : World) : Prop where
  nonempty : w.args ≠ []
  noFlag : isVersionFlag w.args = false
  key : Getenv w "OPENAI_API_KEY" ≠ ""
  snyk : w.lookPath "snyk" = true

/-! ## Example worlds -/

/-- An environment that sets the credential and nothing else. -/
def envWithKey : String → Option String :=
  fun k => if k = "OPENAI_API_KEY" then some "sk-test" else none

/-- A response with the given candidates and no embedded error. -/
def answer (cs : List Choice) : OpenAIResponse :=
  { ID := "chatcmpl-1", Object := "chat.completion", Created := 0, Choices := cs,
    Error := { Message := "" } }

/-- The example of the specification: `snyk test` exits with 1 and writes to
stderr, and the remote service returns one candidate. -/
def exampleWorld : World :=
  { args := ["greybeard", "test"]
    env := envWithKey
    lookPath := fun _ => true
    run := fun _ =>
      { stdout := "", stderr := "2 known vulnerabilities found",
        processState := some (ProcessState.exited 1) }
    wire := fun _ _ =>
      WireOutcome.parsed "body"
        (answer [{ Index := 0, Message := { Role := "assistant", Content := "Listen up, rookie..." } }]) }

/-- The subprocess exits with 3 and the HTTP call does not get through. -/
def offlineWorld : World :=
  { args := ["greybeard", "test"]
    env := envWithKey
    lookPath := fun _ => true
    run := fun _ =>
      { stdout := "scan failed", stderr := "", processState := some (ProcessState.exited 3) }
    wire := fun _ _ => WireOutcome.doError "dial tcp: i/o timeout" }

/-- The subprocess writes a single space and nothing else. -/
def spaceWorld : World :=
  { args := ["greybeard", "test"]
    env := envWithKey
    lookPath := fun _ => true
    run := fun _ =>
      { stdout := " ", stderr := "", processState := some (ProcessState.exited 0) }
    wire := fun _ _ => WireOutcome.doError "dial tcp: i/o timeout" }

/-- The subprocess writes a line feed to stdout and a tab to stderr. -/
def blankWorld : World :=
  { args := ["greybeard", "test"]
    env := envWithKey
    lookPath := fun _ => true
    run := fun _ =>
      { stdout := "\n", stderr := "\t", processState := some (ProcessState.exited 0) }
    wire := fun _ _ => WireOutcome.doError "dial tcp: i/o timeout" }

/-- The remote service answers with an embedded error and a candidate. -/
def apiErrorWorld : World :=
  { args := ["greybeard", "test"]
    env := envWithKey
    lookPath := fun _ => true
    run := fun _ =>
      { stdout := "ok", stderr := "", processState := some (ProcessState.exited 0) }
    wire := fun _ _ =>
      WireOutcome.parsed "body"
        { ID := "", Object := "", Created := 0,
          Choices := [{ Index := 0, Message := { Role := "assistant", Content := "ignored" } }],
          Error := { Message := "Incorrect API key provided" } } }

/-- The remote service answers with no candidate and no embedded error. -/
def noChoiceWorld : World :=
  { args := ["greybeard", "test"]
    env := envWithKey
    lookPath := fun _ => true
    run := fun _ =>
      { stdout := "ok", stderr := "", processState := some (ProcessState.exited 0) }
    wire := fun _ _ => WireOutcome.parsed "body" (answer []) }

/-- The remote service answers with two candidates. -/
def twoChoiceWorld : World :=
  { args := ["greybeard", "test"]
    env := envWithKey
    lookPath := fun _ => true
    run := fun _ =>
      { stdout := "ok", stderr := "", processState := some (ProcessState.exited 0) }
    wire := fun _ _ =>
      WireOutcome.parsed "body"
        (answer
          [ { Index := 0, Message := { Role := "assistant", Content := "first" } },
            { Index := 1, Message := { Role := "assistant", Content := "second" } } ]) }

/-- The version flag is given and the credential is not set. -/
def versionNoKeyWorld : World :=
  { args := ["greybeard", "-v"]
    env := fun _ => none
    lookPath := fun _ => true
    run := fun _ => { stdout := "", stderr := "", processState := none }
    wire := fun _ _ => WireOutcome.doError "unused" }

/-- The version flag is given and `snyk` is not on the search path. -/
def versionNoSnykWorld : World :=
  { args := ["greybeard", "--version"]
    env := envWithKey
    lookPath := fun _ => false
    run := fun _ => { stdout := "", stderr := "", processState := none }
    wire := fun _ _ => WireOutcome.doError "unused" }

/-- The credential is not set and no flag is given. -/
def noKeyWorld : World :=
  { args := ["greybeard", "test"]
    env := fun _ => none
    lookPath := fun _ => true
    run := fun _ => { stdout := "", stderr := "", processState := none }
    wire := fun _ _ => WireOutcome.doError "unused" }

/-- The command `snyk` is not on the search path and no flag is given. -/
def noSnykWorld : World :=
  { args := ["greybeard", "test"]
    env := envWithKey
    lookPath := fun _ => false
    run := fun _ => { stdout := "", stderr := "", processState := none }
    wire := fun _ _ => WireOutcome.doError "unused" }

/-! ## Lemmas on the library functions -/

theorem trimRight_eq_nil_iff (l : List Char) :
    trimRight l = [] ↔ ∀ c ∈ l, isSpace c = true := by
  unfold trimRight
  rw [List.reverse_eq_nil_iff, List.dropWhile_eq_nil_iff]
  simp

theorem trimLeft_eq_nil_of_all (l : List Char)
    (h : ∀ c ∈ trimLeft l, isSpace c = true) : trimLeft l = [] := by
  induction l with
  | nil => rfl
  | cons a t ih =>
    unfold trimLeft at h ih ⊢
    by_cases ha : isSpace a = true
    · rw [List.dropWhile_cons_of_pos ha] at h ⊢
      exact ih h
    · rw [List.dropWhile_cons_of_neg ha] at h
      exact absurd (h a (List.mem_cons_self a t)) ha

theorem trimSpace_eq_empty_iff (s : String) :
    TrimSpace s = "" ↔ isBlank s := by
  unfold TrimSpace isBlank
  rw [String.ext_iff]
  show trimRight (trimLeft s.data) = [] ↔ _
  rw [trimRight_eq_nil_iff]
  constructor
  · intro h
    have h0 : trimLeft s.data = [] := trimLeft_eq_nil_of_all _ h
    unfold trimLeft at h0
    exact List.dropWhile_eq_nil_iff.mp h0
  · intro h
    have h0 : trimLeft s.data = [] := by
      unfold trimLeft
      exact List.dropWhile_eq_nil_iff.mpr h
    rw [h0]
    intro c hc
    cases hc

theorem not_isBlank_of_hasNonSpace (s : String) (h : hasNonSpace s) : ¬ isBlank s := by
  intro hb
  obtain ⟨c, hc, hs⟩ := h
  rw [hb c hc] at hs
  cases hs

theorem append_left_cancel (p a b : String) (h : p ++ a = p ++ b) : a = b := by
  rw [String.ext_iff] at h ⊢
  simpa using h

/-! ## Lemmas on the control flow of `main` -/

theorem main_version (w : World) (hv : isVersionFlag w.args = true) :
    main w =
      { trace := [Effect.print ("Snyk CLI Greybeard v" ++ Version ++ " (built " ++ BuildTime ++ ")\n")]
        exitCode := 0 } := by
  unfold main
  simp [hv]

theorem main_no_key (w : World) (hv : isVersionFlag w.args = false)
    (hk : Getenv w "OPENAI_API_KEY" = "") :
    main w =
      { trace :=
          [ Println "Error: OPENAI_API_KEY environment variable is not set.",
            Println "Please set it with: export OPENAI_API_KEY=\x27your-api-key\x27" ]
        exitCode := 1 } := by
  unfold main
  simp [hv, hk]

theorem main_no_snyk (w : World) (hv : isVersionFlag w.args = false)
    (hk : Getenv w "OPENAI_API_KEY" ≠ "") (hs : w.lookPath "snyk" = false) :
    main w =
      { trace :=
          [ Println "Error: \x27snyk\x27 command not found. Please install the Snyk CLI.",
            Println "Visit https://docs.snyk.io/snyk-cli/install-the-snyk-cli for installation instructions." ]
        exitCode := 1 } := by
  unfold main
  simp [hv, hk, hs, isCommandAvailable]

theorem main_err (w : World) (h : ChecksPass w) (text err : String)
    (hcall : callOpenAI w (Getenv w "OPENAI_API_KEY") systemPrompt
      (sentText (capturedOutput w)) = (text, some err)) :
    main w =
      { trace :=
          [ Effect.runSnyk w.args.tail,
            Println rawHeading,
            Println (capturedOutput w),
            Println separator,
            Effect.callOpenAI (Getenv w "OPENAI_API_KEY") systemPrompt
              (sentText (capturedOutput w)),
            Effect.print greybeardHeading,
            Effect.print ("Error calling OpenAI API: " ++ err ++ "\n") ]
        exitCode := ExitCode (w.run w.args.tail).processState } := by
  obtain ⟨hne, hv, hk, hs⟩ := h
  unfold capturedOutput sentText executeSnyk at *
  unfold main
  cases hargs : w.args with
  | nil => exact absurd hargs hne
  | cons a rest =>
    rw [hargs] at hv hcall
    simp only [List.tail_cons] at hcall ⊢
    simp only [hv, hk, hs, isCommandAvailable, executeSnyk, hcall]
    simp

theorem main_ok (w : World) (h : ChecksPass w) (text : String)
    (hcall : callOpenAI w (Getenv w "OPENAI_API_KEY") systemPrompt
      (sentText (capturedOutput w)) = (text, none)) :
    main w =
      { trace :=
          [ Effect.runSnyk w.args.tail,
            Println rawHeading,
            Println (capturedOutput w),
            Println separator,
            Effect.callOpenAI (Getenv w "OPENAI_API_KEY") systemPrompt
              (sentText (capturedOutput w)),
            Effect.print greybeardHeading,
            Println text ]
        exitCode := ExitCode (w.run w.args.tail).processState } := by
  obtain ⟨hne, hv, hk, hs⟩ := h
  unfold capturedOutput sentText executeSnyk at *
  unfold main
  cases hargs : w.args with
  | nil => exact absurd hargs hne
  | cons a rest =>
    rw [hargs] at hv hcall
    simp only [List.tail_cons] at hcall ⊢
    simp only [hv, hk, hs, isCommandAvailable, executeSnyk, hcall]
    simp

theorem checksPass_of_reaches (w : World) (h : reachesExecuteSnyk w) : ChecksPass w := by
  obtain ⟨a, ha⟩ := h
  cases hv : isVersionFlag w.args with
  | true =>
    rw [main_version w hv] at ha
    simp at ha
  | false =>
    by_cases hk : Getenv w "OPENAI_API_KEY" = ""
    · rw [main_no_key w hv hk] at ha
      simp [Println] at ha
    · cases hs : w.lookPath "snyk" with
      | false =>
        rw [main_no_snyk w hv hk hs] at ha
        simp [Println] at ha
      | true =>
        refine ⟨?_, hv, hk, hs⟩
        intro hnil
        unfold main at ha
        simp [hv, hk, hs, isCommandAvailable, hnil, isVersionFlag] at ha

theorem reaches_of_checksPass (w : World) (h : ChecksPass w) : reachesExecuteSnyk w := by
  refine ⟨w.args.tail, ?_⟩
  rcases hcall : callOpenAI w (Getenv w "OPENAI_API_KEY") systemPrompt
      (sentText (capturedOutput w)) with ⟨text, _ | err⟩
  · rw [main_ok w h text hcall]
    simp
  · rw [main_err w h text err hcall]
    simp

theorem callOpenAI_ok (w : World) (k sp t text : String)
    (h : callOpenAI w k sp t = (text, none)) :
    ∃ body resp c rest, w.wire k (requestBody sp t) = WireOutcome.parsed body resp ∧
      resp.Error.Message = "" ∧ resp.Choices = c :: rest ∧ text = c.Message.Content := by
  unfold callOpenAI at h
  cases hw : w.wire k (requestBody sp t) with
  | marshalError e => rw [hw] at h; simp at h
  | requestError e => rw [hw] at h; simp at h
  | doError e => rw [hw] at h; simp at h
  | readError e => rw [hw] at h; simp at h
  | parseError e body => rw [hw] at h; simp at h
  | parsed body resp =>
    rw [hw] at h
    by_cases he : resp.Error.Message = ""
    · cases hc : resp.Choices with
      | nil => simp [he, hc] at h
      | cons c rest =>
        simp [he, hc] at h
        exact ⟨body, resp, c, rest, rfl, he, hc, h.symm⟩
    · simp [he] at h

/-! ## The checks pass in the example worlds -/

theorem checksPass_exampleWorld : ChecksPass exampleWorld :=
  ⟨by decide, by decide, by decide, rfl⟩

theorem checksPass_offlineWorld : ChecksPass offlineWorld :=
  ⟨by decide, by decide, by decide, rfl⟩

theorem checksPass_spaceWorld : ChecksPass spaceWorld :=
  ⟨by decide, by decide, by decide, rfl⟩

theorem checksPass_blankWorld : ChecksPass blankWorld :=
  ⟨by decide, by decide, by decide, rfl⟩

/-! ## Lemmas on the call of `callOpenAI` in `main` -/

theorem sentText_of_isBlank (s : String) (h : isBlank s) : sentText s = placeholder := by
  unfold sentText
  rw [if_pos ((trimSpace_eq_empty_iff s).mpr h)]

theorem sentText_of_hasNonSpace (s : String) (h : hasNonSpace s) : sentText s = s := by
  unfold sentText
  rw [if_neg (fun hb => not_isBlank_of_hasNonSpace s h ((trimSpace_eq_empty_iff s).mp hb))]

theorem userTurns_requestBody (sp t : String) :
    userTurns (requestBody sp t) = [userPrefix ++ t] := by
  simp [userTurns, requestBody]

theorem call_of_mem_trace (w : World) (k sp t : String)
    (h : Effect.callOpenAI k sp t ∈ (main w).trace) :
    ChecksPass w ∧ k = Getenv w "OPENAI_API_KEY" ∧ sp = systemPrompt ∧
      t = sentText (capturedOutput w) := by
  cases hv : isVersionFlag w.args with
  | true =>
    rw [main_version w hv] at h
    simp at h
  | false =>
    by_cases hk : Getenv w "OPENAI_API_KEY" = ""
    · rw [main_no_key w hv hk] at h
      simp [Println] at h
    · cases hs : w.lookPath "snyk" with
      | false =>
        rw [main_no_snyk w hv hk hs] at h
        simp [Println] at h
      | true =>
        by_cases hnil : w.args = []
        · unfold main at h
          simp [hv, hk, hs, isCommandAvailable, hnil, isVersionFlag] at h
        · have hp : ChecksPass w := ⟨hnil, hv, hk, hs⟩
          refine ⟨hp, ?_⟩
          rcases hcall : callOpenAI w (Getenv w "OPENAI_API_KEY") systemPrompt
              (sentText (capturedOutput w)) with ⟨text, _ | err⟩
          · rw [main_ok w hp text hcall] at h
            simpa [Println] using h
          · rw [main_err w hp text err hcall] at h
            simpa [Println] using h

theorem requestsSent_of_checksPass (w : World) (h : ChecksPass w) :
    requestsSent (main w) = [requestBody systemPrompt (sentText (capturedOutput w))] := by
  rcases hcall : callOpenAI w (Getenv w "OPENAI_API_KEY") systemPrompt
      (sentText (capturedOutput w)) with ⟨text, _ | err⟩
  · rw [main_ok w h text hcall]
    simp [requestsSent, Println]
  · rw [main_err w h text err hcall]
    simp [requestsSent, Println]

theorem textsPassed_of_checksPass (w : World) (h : ChecksPass w) :
    textsPassed (main w) = [sentText (capturedOutput w)] := by
  rcases hcall : callOpenAI w (Getenv w "OPENAI_API_KEY") systemPrompt
      (sentText (capturedOutput w)) with ⟨text, _ | err⟩
  · rw [main_ok w h text hcall]
    simp [textsPassed, Println]
  · rw [main_err w h text err hcall]
    simp [textsPassed, Println]

/-! ## Exit code -/

/-- C1: when `main` reaches `executeSnyk` and the snyk subprocess exits with
code `c`, the program's exit code is `c`.  The world `w`, and with it the
result of `callOpenAI` (a text, or an error of any kind), is arbitrary. -/
theorem exit_code_mirrors_subprocess (w : World) (c : Int)
    (hreach : reachesExecuteSnyk w)
    (hexit : (w.run w.args.tail).processState = some (ProcessState.exited c)) :
    (main w).exitCode = c := by
  have hp := checksPass_of_reaches w hreach
  rcases hcall : callOpenAI w (Getenv w "OPENAI_API_KEY") systemPrompt
      (sentText (capturedOutput w)) with ⟨text, _ | err⟩
  · rw [main_ok w hp text hcall]
    simp [hexit, ExitCode]
  · rw [main_err w hp text err hcall]
    simp [hexit, ExitCode]

/-- Witness of C1: the subprocess exits with 3, the HTTP call fails, and the
program exits with 3. -/
theorem exit_code_mirrors_subprocess_witness :
    reachesExecuteSnyk offlineWorld ∧
      (offlineWorld.run offlineWorld.args.tail).processState = some (ProcessState.exited 3) ∧
      (main offlineWorld).exitCode = 3 :=
  ⟨reaches_of_checksPass offlineWorld checksPass_offlineWorld, rfl,
    exit_code_mirrors_subprocess offlineWorld 3
      (reaches_of_checksPass offlineWorld checksPass_offlineWorld) rfl⟩

/-- C2 as stated fails: with the credential missing and `-v` as first
argument the program exits with code 0, not 1. -/
theorem missing_key_with_version_flag_exits_zero :
    Getenv versionNoKeyWorld "OPENAI_API_KEY" = "" ∧
      (main versionNoKeyWorld).exitCode = 0 ∧
      (main versionNoKeyWorld).exitCode ≠ 1 := by
  refine ⟨by decide, ?_, ?_⟩
  · rw [main_version versionNoKeyWorld (by decide)]
  · rw [main_version versionNoKeyWorld (by decide)]
    decide

/-- C2 amended: with the credential missing, `main` never runs the snyk
subprocess and never calls `callOpenAI`, whatever the arguments; and it exits
with code 1 whenever the first argument is not the version flag. -/
theorem missing_key_exits_one (w : World) (hk : Getenv w "OPENAI_API_KEY" = "") :
    (isVersionFlag w.args = false → (main w).exitCode = 1) ∧
      (∀ a, Effect.runSnyk a ∉ (main w).trace) ∧
      (∀ k sp t, Effect.callOpenAI k sp t ∉ (main w).trace) := by
  cases hv : isVersionFlag w.args with
  | true =>
    rw [main_version w hv]
    simp
  | false =>
    rw [main_no_key w hv hk]
    simp [Println]

/-- Witness of C2 amended: no credential, arguments `test`. -/
theorem missing_key_exits_one_witness :
    Getenv noKeyWorld "OPENAI_API_KEY" = "" ∧
      (isVersionFlag noKeyWorld.args = false → (main noKeyWorld).exitCode = 1) ∧
      (∀ a, Effect.runSnyk a ∉ (main noKeyWorld).trace) ∧
      (∀ k sp t, Effect.callOpenAI k sp t ∉ (main noKeyWorld).trace) :=
  ⟨by decide, missing_key_exits_one noKeyWorld (by decide)⟩

/-- C8 as stated fails: with `snyk` not on the search path and `--version` as
first argument the program exits with code 0, not 1. -/
theorem missing_snyk_with_version_flag_exits_zero :
    isCommandAvailable versionNoSnykWorld "snyk" = false ∧
      (main versionNoSnykWorld).exitCode = 0 ∧
      (main versionNoSnykWorld).exitCode ≠ 1 := by
  refine ⟨rfl, ?_, ?_⟩
  · rw [main_version versionNoSnykWorld (by decide)]
  · rw [main_version versionNoSnykWorld (by decide)]
    decide

/-- C8 amended: with `snyk` not on the search path, `main` never calls
`callOpenAI`, whatever the arguments; and it exits with code 1 whenever the
first argument is not the version flag. -/
theorem missing_snyk_exits_one (w : World) (hs : isCommandAvailable w "snyk" = false) :
    (isVersionFlag w.args = false → (main w).exitCode = 1) ∧
      (∀ k sp t, Effect.callOpenAI k sp t ∉ (main w).trace) := by
  unfold isCommandAvailable at hs
  cases hv : isVersionFlag w.args with
  | true =>
    rw [main_version w hv]
    simp
  | false =>
    by_cases hk : Getenv w "OPENAI_API_KEY" = ""
    · rw [main_no_key w hv hk]
      simp [Println]
    · rw [main_no_snyk w hv hk hs]
      simp [Println]

/-- Witness of C8 amended: the credential is set, `snyk` is missing, the
arguments are `test`. -/
theorem missing_snyk_exits_one_witness :
    isCommandAvailable noSnykWorld "snyk" = false ∧
      (isVersionFlag noSnykWorld.args = false → (main noSnykWorld).exitCode = 1) ∧
      (∀ k sp t, Effect.callOpenAI k sp t ∉ (main noSnykWorld).trace) :=
  ⟨rfl, missing_snyk_exits_one noSnykWorld rfl⟩

/-! ## The result of `callOpenAI` -/

/-- C5: a parsed response with a non-empty `error.message` makes `callOpenAI`
return the empty text and an error, whatever `choices` holds. -/
theorem api_error_is_failure (w : World) (k sp t body : String) (resp : OpenAIResponse)
    (hwire : w.wire k (requestBody sp t) = WireOutcome.parsed body resp)
    (herr : resp.Error.Message ≠ "") :
    callOpenAI w k sp t = ("", some ("API error: " ++ resp.Error.Message)) := by
  unfold callOpenAI
  rw [hwire]
  simp [herr]

/-- Witness of C5: an embedded error next to one candidate. -/
theorem api_error_is_failure_witness :
    callOpenAI apiErrorWorld "sk-test" systemPrompt "ok" =
      ("", some ("API error: " ++ "Incorrect API key provided")) :=
  api_error_is_failure apiErrorWorld "sk-test" systemPrompt "ok" "body" _ rfl (by decide)

/-- C6: a parsed response with an empty `choices` list makes `callOpenAI`
return the empty text and an error, also when `error.message` is empty. -/
theorem no_choices_is_failure (w : World) (k sp t body : String) (resp : OpenAIResponse)
    (hwire : w.wire k (requestBody sp t) = WireOutcome.parsed body resp)
    (hch : resp.Choices = []) :
    (callOpenAI w k sp t).1 = "" ∧ (callOpenAI w k sp t).2 ≠ none ∧
      (resp.Error.Message = "" →
        callOpenAI w k sp t =
          ("", some ("no response content returned from API (response: " ++ body ++ ")"))) := by
  unfold callOpenAI
  rw [hwire]
  by_cases he : resp.Error.Message = ""
  · simp [he, hch]
  · simp [he]

/-- Witness of C6: no candidate and no embedded error. -/
theorem no_choices_is_failure_witness :
    (callOpenAI noChoiceWorld "sk-test" systemPrompt "ok").1 = "" ∧
      (callOpenAI noChoiceWorld "sk-test" systemPrompt "ok").2 ≠ none ∧
      ((answer []).Error.Message = "" →
        callOpenAI noChoiceWorld "sk-test" systemPrompt "ok" =
          ("", some ("no response content returned from API (response: " ++ "body" ++ ")"))) :=
  no_choices_is_failure noChoiceWorld "sk-test" systemPrompt "ok" "body" (answer []) rfl rfl

/-- C7: a parsed response with an empty `error.message` and at least one
candidate makes `callOpenAI` return, with no error, the content of the first
candidate unchanged, whatever the later candidates are. -/
theorem first_choice_returned (w : World) (k sp t body : String) (resp : OpenAIResponse)
    (c : Choice) (rest : List Choice)
    (hwire : w.wire k (requestBody sp t) = WireOutcome.parsed body resp)
    (herr : resp.Error.Message = "")
    (hch : resp.Choices = c :: rest) :
    callOpenAI w k sp t = (c.Message.Content, none) := by
  unfold callOpenAI
  rw [hwire]
  simp [herr, hch]

/-- Witness of C7: two candidates, the first one is returned. -/
theorem first_choice_returned_witness :
    callOpenAI twoChoiceWorld "sk-test" systemPrompt "ok" = ("first", none) :=
  first_choice_returned twoChoiceWorld "sk-test" systemPrompt "ok" "body" _
    { Index := 0, Message := { Role := "assistant", Content := "first" } }
    [{ Index := 1, Message := { Role := "assistant", Content := "second" } }] rfl rfl rfl

/-! ## The request -/

/-- C3 as stated fails: the captured output `" "` is non-empty, yet the user
turn of the request holds the placeholder and not the captured output. -/
theorem space_output_is_not_sent :
    reachesExecuteSnyk spaceWorld ∧
      capturedOutput spaceWorld = " " ∧
      capturedOutput spaceWorld ≠ "" ∧
      (requestsSent (main spaceWorld)).map userTurns = [[userPrefix ++ placeholder]] ∧
      (requestsSent (main spaceWorld)).map userTurns ≠
        [[userPrefix ++ capturedOutput spaceWorld]] := by
  have hb : isBlank (capturedOutput spaceWorld) := by
    intro c hc
    have hc0 : c = Char.ofNat 32 := by simpa [capturedOutput, executeSnyk, spaceWorld] using hc
    rw [hc0]
    decide
  have hreq := requestsSent_of_checksPass spaceWorld checksPass_spaceWorld
  rw [sentText_of_isBlank _ hb] at hreq
  refine ⟨reaches_of_checksPass spaceWorld checksPass_spaceWorld, rfl, by decide, ?_, ?_⟩
  · rw [hreq]
    simp [userTurns_requestBody]
  · rw [hreq]
    simp only [List.map_cons, List.map_nil, userTurns_requestBody]
    intro h
    have h1 : userPrefix ++ placeholder = userPrefix ++ capturedOutput spaceWorld := by
      simpa using h
    have h2 := append_left_cancel _ _ _ h1
    revert h2
    decide

/-- C3 amended: when the captured output `s` has at least one rune that is
not white space, the program sends one request, and its user turn is the
fixed prefix followed by `s` exactly. -/
theorem user_turn_is_prefix_and_output (w : World) (s : String)
    (hreach : reachesExecuteSnyk w)
    (hs : capturedOutput w = s)
    (hne : hasNonSpace s) :
    ∃ req, requestsSent (main w) = [req] ∧ userTurns req = [userPrefix ++ s] := by
  have hp := checksPass_of_reaches w hreach
  refine ⟨requestBody systemPrompt s, ?_, userTurns_requestBody _ _⟩
  rw [requestsSent_of_checksPass w hp, hs, sentText_of_hasNonSpace s hne]

/-- Witness of C3 amended: the captured output of the example run. -/
theorem user_turn_is_prefix_and_output_witness :
    reachesExecuteSnyk exampleWorld ∧
      hasNonSpace "2 known vulnerabilities found" ∧
      ∃ req, requestsSent (main exampleWorld) = [req] ∧
        userTurns req = [userPrefix ++ "2 known vulnerabilities found"] :=
  ⟨reaches_of_checksPass exampleWorld checksPass_exampleWorld,
    ⟨Char.ofNat 50, by decide, by decide⟩,
    user_turn_is_prefix_and_output exampleWorld "2 known vulnerabilities found"
      (reaches_of_checksPass exampleWorld checksPass_exampleWorld) rfl
      ⟨Char.ofNat 50, by decide, by decide⟩⟩

/-- C4: when the captured output `s` is empty or all white space, the text
passed to `callOpenAI` is the placeholder, and the user turn of the request
is the fixed prefix followed by the placeholder, which differs from the
prefix followed by `s`. -/
theorem blank_output_is_replaced (w : World) (s : String)
    (hreach : reachesExecuteSnyk w)
    (hs : capturedOutput w = s)
    (hb : isBlank s) :
    textsPassed (main w) = [placeholder] ∧
      (∃ req, requestsSent (main w) = [req] ∧ userTurns req = [userPrefix ++ placeholder]) ∧
      userPrefix ++ placeholder ≠ userPrefix ++ s := by
  have hp := checksPass_of_reaches w hreach
  refine ⟨?_, ⟨requestBody systemPrompt placeholder, ?_, userTurns_requestBody _ _⟩, ?_⟩
  · rw [textsPassed_of_checksPass w hp, hs, sentText_of_isBlank s hb]
  · rw [requestsSent_of_checksPass w hp, hs, sentText_of_isBlank s hb]
  · intro h
    have h1 : placeholder = s := append_left_cancel _ _ _ h
    have h2 : isSpace (Char.ofNat 78) = true := hb _ (by rw [← h1]; decide)
    revert h2
    decide

/-- Witness of C4: a line feed on stdout and a tab on stderr. -/
theorem blank_output_is_replaced_witness :
    reachesExecuteSnyk blankWorld ∧
      isBlank "\n\t" ∧
      textsPassed (main blankWorld) = [placeholder] ∧
      (∃ req, requestsSent (main blankWorld) = [req] ∧
        userTurns req = [userPrefix ++ placeholder]) ∧
      userPrefix ++ placeholder ≠ userPrefix ++ "\n\t" :=
  ⟨reaches_of_checksPass blankWorld checksPass_blankWorld,
    by decide,
    blank_output_is_replaced blankWorld "\n\t"
      (reaches_of_checksPass blankWorld checksPass_blankWorld) rfl (by decide)⟩

/-- C10: the request `callOpenAI` builds has exactly two messages, a system
turn holding the system prompt and then a user turn; and every call of
`callOpenAI` that `main` makes passes the one fixed instruction string as
system prompt, so every request of a run has that string as its system turn
and the text passed in only in its user turn. -/
theorem request_has_two_turns :
    (∀ sp t : String,
        (requestBody sp t).Messages =
          [{ Role := "system", Content := sp }, { Role := "user", Content := userPrefix ++ t }]) ∧
      (∀ (w : World) (k sp t : String),
        Effect.callOpenAI k sp t ∈ (main w).trace → sp = systemPrompt) ∧
      (∀ (w : World) (req : OpenAIRequest), req ∈ requestsSent (main w) →
        ∃ t, t ∈ textsPassed (main w) ∧ req.Messages =
          [{ Role := "system", Content := systemPrompt },
            { Role := "user", Content := userPrefix ++ t }]) := by
  refine ⟨fun _ _ => rfl, fun w k sp t h => (call_of_mem_trace w k sp t h).2.2.1, ?_⟩
  intro w req hreq
  unfold requestsSent at hreq
  rw [List.mem_filterMap] at hreq
  obtain ⟨e, he, hsome⟩ := hreq
  cases e with
  | print s => simp at hsome
  | runSnyk a => simp at hsome
  | callOpenAI k sp t =>
    simp only [Option.some.injEq] at hsome
    obtain ⟨hp, _, hsp, ht⟩ := call_of_mem_trace w k sp t he
    refine ⟨t, ?_, ?_⟩
    · rw [textsPassed_of_checksPass w hp, ht]
      simp
    · rw [← hsome, hsp]
      rfl

/-! ## Console output -/

/-- C9: in a run that reaches `executeSnyk` the prints are, in order, the
raw-output heading, the captured output (stdout followed by stderr, never the
placeholder), the separator, the second heading, and then either the text
`callOpenAI` returned, which is the content of the first candidate, or the
line with the error `callOpenAI` returned and nothing else. -/
theorem console_output_order (w : World) (hreach : reachesExecuteSnyk w) :
    Effect.callOpenAI (Getenv w "OPENAI_API_KEY") systemPrompt (sentText (capturedOutput w))
        ∈ (main w).trace ∧
      (∀ text,
        callOpenAI w (Getenv w "OPENAI_API_KEY") systemPrompt (sentText (capturedOutput w))
          = (text, none) →
        console (main w) =
            [ rawHeading ++ "\n",
              (w.run w.args.tail).stdout ++ (w.run w.args.tail).stderr ++ "\n",
              separator ++ "\n",
              greybeardHeading,
              text ++ "\n" ] ∧
          ∃ body resp c rest,
            w.wire (Getenv w "OPENAI_API_KEY")
                (requestBody systemPrompt (sentText (capturedOutput w)))
              = WireOutcome.parsed body resp ∧
            resp.Choices = c :: rest ∧ text = c.Message.Content) ∧
      (∀ text err,
        callOpenAI w (Getenv w "OPENAI_API_KEY") systemPrompt (sentText (capturedOutput w))
          = (text, some err) →
        console (main w) =
          [ rawHeading ++ "\n",
            (w.run w.args.tail).stdout ++ (w.run w.args.tail).stderr ++ "\n",
            separator ++ "\n",
            greybeardHeading,
            "Error calling OpenAI API: " ++ err ++ "\n" ]) := by
  have hp := checksPass_of_reaches w hreach
  refine ⟨?_, ?_, ?_⟩
  · rcases hcall : callOpenAI w (Getenv w "OPENAI_API_KEY") systemPrompt
        (sentText (capturedOutput w)) with ⟨text, _ | err⟩
    · rw [main_ok w hp text hcall]
      simp
    · rw [main_err w hp text err hcall]
      simp
  · intro text hcall
    refine ⟨?_, ?_⟩
    · rw [main_ok w hp text hcall]
      simp [console, Println, capturedOutput, executeSnyk]
    · obtain ⟨body, resp, c, rest, hw, _, hc, ht⟩ := callOpenAI_ok w _ _ _ text hcall
      exact ⟨body, resp, c, rest, hw, hc, ht⟩
  · intro text err hcall
    rw [main_err w hp text err hcall]
    simp [console, Println, capturedOutput, executeSnyk]

/-- Witness of C9: the example run prints the raw stderr text, the
separator, the heading and the candidate. -/
theorem console_output_order_witness :
    reachesExecuteSnyk exampleWorld ∧
      console (main exampleWorld) =
        [ rawHeading ++ "\n",
          "" ++ "2 known vulnerabilities found" ++ "\n",
          separator ++ "\n",
          greybeardHeading,
          "Listen up, rookie..." ++ "\n" ] :=
  ⟨reaches_of_checksPass exampleWorld checksPass_exampleWorld,
    ((console_output_order exampleWorld
      (reaches_of_checksPass exampleWorld checksPass_exampleWorld)).2.1
        "Listen up, rookie..." rfl).1⟩

end Greybeard
